import Mathlib

/-!
Verification of the heapster event-sink layer: the alertmanager
alert-forwarding sink (severity filter, ignore list, dedup cache,
alert construction) and the sink factory dispatch.

The repository carries two variants of the alertmanager sink:
the plain batched one (events/sinks/alertmanager/alertmanager.go) and a
variant with an ignore list and a TTL dedup cache. Shared pieces
(getLevel, createAlertFromEvent, the sink struct) are defined once; the
dedup-specific processing lives in namespace Dedup.
-/

namespace Heapster

/-! ## Constants (package alertmanager) -/

def ALERTMANAGER_SINK : String := "alertmanager"

def WARNING : Int := 2

def NORMAL : Int := 1

def AlertNameLabel : String := "alertname"

def AlertClusterLabel : String := "cluster"

def AlertGroupLabel : String := "group"

def AlertLevelLabel : String := "level"

def AlertInstanceLabel : String := "instance"

def AlertReasonLabel : String := "reason"

/-- Error value NotVaildAlertName, represented by its message string. -/
def NotVaildAlertName : String := "not valid alert name"

def ignoreAlerts : List String := ["Unhealthy"]

/-- Value of the k8s constant v1.EventTypeWarning. -/
def EventTypeWarning : String := "Warning"

/-- Value of the k8s constant v1.EventTypeNormal. -/
def EventTypeNormal : String := "Normal"

/-! ## Data model -/

/-- Identity-relevant fields of a k8s v1.Event as used by the sink
(Go field names Type, Namespace, Name, Message, Reason; the first two are
renamed because they are Lean keywords). -/
structure Event where
  type : String
  Namespace : String
  Name : String
  Message : String
  Reason : String
  deriving DecidableEq, Repr

/-- Alert as sent to alertmanager; the Go label map is embedded as an
association list in insertion order (all inserted keys are distinct). -/
structure Alert where
  Labels : List (String × String)
  Annotations : List (String × String)
  deriving DecidableEq, Repr

/-- AlertmanagerSink struct (Endpoint, Level, Cluster). -/
structure AlertmanagerSink where
  Endpoint : String
  Level : Int
  Cluster : String
  deriving DecidableEq, Repr

/-- Host plus query of a net/url URL as the sink constructor consumes it:
uri.Query() is a map from parameter name to list of values. -/
structure URL where
  Host : String
  Path : String
  Query : String → List String

/-! ## Shared functions of the alertmanager package -/

/-- Models Go strings.ToUpper: per-rune upper casing of the string (the
strings exercised here are ASCII, where Go and this model agree). -/
def toUpper (s : String) : String := ⟨s.data.map Char.toUpper⟩

/-- getLevel: the fixed severity mapping (Warning 2, Normal 1, else 0). -/
def getLevel (level : String) : Int :=
  if level = EventTypeWarning then 2
  else if level = EventTypeNormal then 1
  else 0

/-- isEventLevelDangerous: score of the event type at least the sink level. -/
def AlertmanagerSink.isEventLevelDangerous (a : AlertmanagerSink) (level : String) : Bool :=
  if getLevel level ≥ a.Level then true else false

/-- createAlertFromEvent: builds the label map; fails on an empty message;
group label is the namespace uppercased; optional labels are omitted when
their source field is empty; cluster label always set last. -/
def createAlertFromEvent (cluster : String) (event : Event) : Except String Alert :=
  if event.Message ≠ "" then
    let labels := [(AlertNameLabel, event.Message)]
    let labels := if event.Namespace ≠ "" then
        labels ++ [(AlertGroupLabel, toUpper event.Namespace)] else labels
    let labels := if event.type ≠ "" then
        labels ++ [(AlertLevelLabel, event.type)] else labels
    let labels := if event.Name ≠ "" then
        labels ++ [(AlertInstanceLabel, event.Name)] else labels
    let labels := if event.Reason ≠ "" then
        labels ++ [(AlertReasonLabel, event.Reason)] else labels
    Except.ok { Labels := labels ++ [(AlertClusterLabel, cluster)], Annotations := [] }
  else
    Except.error NotVaildAlertName

/-- NewAlertmanagerSink: endpoint from host+path, required cluster query
parameter (construction error when absent), optional level parameter
(default WARNING, otherwise getLevel of the first value). -/
def NewAlertmanagerSink (uri : URL) : Except String AlertmanagerSink :=
  let endpoint := if uri.Host.length > 0 then uri.Host ++ uri.Path else ""
  match uri.Query "cluster" with
  | [] => Except.error "you must provide cluster name"
  | c :: _ =>
    let lvl := match uri.Query "level" with
      | [] => WARNING
      | l :: _ => getLevel l
    Except.ok { Endpoint := endpoint, Level := lvl, Cluster := c }

/-- Loop body of ExportEvents of the plain batched variant: severity
filter, then alert construction; a build failure leaves the accumulator
unchanged. -/
def AlertmanagerSink.exportStep (a : AlertmanagerSink) (alerts : List Alert) (event : Event) :
    List Alert :=
  if a.isEventLevelDangerous event.type then
    match createAlertFromEvent a.Cluster event with
    | Except.error _ => alerts
    | Except.ok alert => alerts ++ [alert]
  else alerts

/-- ExportEvents of the plain batched variant: per event, severity filter
then alert construction; build failures are skipped; the returned list is
the accumulated outbound payload (sent in one HTTP call when non-empty). -/
def AlertmanagerSink.ExportEvents (a : AlertmanagerSink) (batch : List Event) : List Alert :=
  batch.foldl a.exportStep []

/-! ## Dedup-cache variant -/

/-- generateKey: Sprintf of MSG_RECORDER_KEY_TEMPLATE, which is five
adjacent verbs, so the five fields are concatenated with no separator. -/
def generateKey (event : Event) : String :=
  event.type ++ event.Namespace ++ event.Name ++ event.Message ++ event.Reason

/-- isIgnoreAlert: the flag-setting loop over ignoreAlerts. -/
def isIgnoreAlert (event : Event) : Bool :=
  ignoreAlerts.foldl (fun ignore v => if event.Reason = v then true else ignore) false

/-- State of the recorder: fingerprint paired with its expiry time in
seconds. Models the external inmem TTL cache the sink uses (the
capacity-500 LRU eviction of that library is not reached by the traces
considered here). -/
abbrev Cache := List (String × Nat)

/-- Lookup in the recorder: a hit only when the entry exists and its expiry
is not in the past (the external cache treats an entry as expired exactly
when its expiry time is before now). -/
def cacheGet (c : Cache) (key : String) (now : Nat) : Bool :=
  match c.lookup key with
  | none => false
  | some expires => if expires < now then false else true

/-- Insert into the recorder with the given expiry, replacing any previous
entry for the same key. -/
def cacheAdd (c : Cache) (key : String) (expires : Nat) : Cache :=
  (key, expires) :: c.filter (fun p => p.1 != key)

namespace Dedup

/-- Loop body of ExportEvents of the dedup variant, processing one event at
time now: severity filter, ignore list, dedup lookup, then record the
fingerprint with a 300 second expiry, then attempt the alert build.
Returns the updated recorder and the alert contributed, if any. -/
def processEvent (a : AlertmanagerSink) (cache : Cache) (now : Nat) (event : Event) :
    Cache × Option Alert :=
  if a.isEventLevelDangerous event.type then
    if isIgnoreAlert event then (cache, none)
    else if cacheGet cache (generateKey event) now then (cache, none)
    else
      let cache := cacheAdd cache (generateKey event) (now + 300)
      match createAlertFromEvent a.Cluster event with
      | Except.error _ => (cache, none)
      | Except.ok alert => (cache, some alert)
  else (cache, none)

/-- Fold step of the dedup ExportEvents: run processEvent on the current
recorder state and append any produced alert. -/
def exportStep (a : AlertmanagerSink) (st : Cache × List Alert) (te : Nat × Event) :
    Cache × List Alert :=
  let r := processEvent a st.1 te.1 te.2
  (r.1, match r.2 with
        | none => st.2
        | some alert => st.2 ++ [alert])

/-- ExportEvents of the dedup variant over a trace of timestamped events,
threading the recorder state; the second component is the list of
forwarded alerts in order. -/
def ExportEvents (a : AlertmanagerSink) (cache : Cache) (events : List (Nat × Event)) :
    Cache × List Alert :=
  events.foldl (exportStep a) (cache, [])

end Dedup

/-! ## Sink factory -/

/-- Uri passed to the factory: a backend key and the configuration URL. -/
structure Uri where
  Key : String
  Val : URL

/-- Constructed event sink: the alertmanager sink is modelled concretely;
the other backends are external collaborators identified by kind. -/
inductive EventSink where
  | alertmanager (s : AlertmanagerSink)
  | other (kind : String)

/-- Backend keys of the factory switch other than alertmanager, in switch
order; their constructors live in other packages and are treated as
external. -/
def otherSinkKeys : List String :=
  ["gcl", "log", "influxdb", "elasticsearch", "kafka", "riemann",
   "honeycomb", "dingtalk", "sls"]

/-- Build: the factory switch. The alertmanager branch calls
NewAlertmanagerSink; the other known branches call their external
constructors, abstracted by the parameter ext; an unknown key yields the
not-recognized error. -/
def Build (ext : String → URL → Except String EventSink) (uri : Uri) :
    Except String EventSink :=
  if uri.Key = "alertmanager" then
    (NewAlertmanagerSink uri.Val).map EventSink.alertmanager
  else if otherSinkKeys.contains uri.Key then
    ext uri.Key uri.Val
  else
    Except.error ("Sink not recognized: " ++ uri.Key)

/-- Loop body of BuildAll: append the built sink, or skip the spec when
Build fails. -/
def buildStep (ext : String → URL → Except String EventSink)
    (result : List EventSink) (uri : Uri) : List EventSink :=
  match Build ext uri with
  | Except.error _ => result
  | Except.ok sink => result ++ [sink]

/-- BuildAll: Build each spec in order, appending successes and skipping
failures. -/
def BuildAll (ext : String → URL → Except String EventSink) (uris : List Uri) :
    List EventSink :=
  uris.foldl (buildStep ext) []

/-! ## Sample inputs -/

/-- Warning event of the concrete spec scenario. -/
def evWarn : Event :=
  { type := "Warning", Namespace := "kube-system", Name := "pod-a",
    Message := "OOMKilled", Reason := "Evicted" }

/-- Normal-severity event. -/
def evNorm : Event :=
  { type := "Normal", Namespace := "default", Name := "pod-b",
    Message := "Started container", Reason := "Started" }

/-- Warning event whose reason is on the ignore list. -/
def evUnhealthy : Event :=
  { type := "Warning", Namespace := "default", Name := "pod-c",
    Message := "Readiness probe failed", Reason := "Unhealthy" }

/-- Warning event with an empty message. -/
def evNoMessage : Event :=
  { type := "Warning", Namespace := "default", Name := "pod-d",
    Message := "", Reason := "FailedScheduling" }

/-- Sink configured with the default Warning threshold and cluster demo. -/
def demoSink : AlertmanagerSink :=
  { Endpoint := "am:9093", Level := WARNING, Cluster := "demo" }

/-! ## Helper lemmas -/

lemma exportStep_acc (a : AlertmanagerSink) (acc : List Alert) (e : Event) :
    a.exportStep acc e = acc ++ a.exportStep [] e := by
  unfold AlertmanagerSink.exportStep
  split
  · split <;> simp
  · simp

lemma foldl_exportStep_acc (a : AlertmanagerSink) (l : List Event) (acc : List Alert) :
    l.foldl a.exportStep acc = acc ++ l.foldl a.exportStep [] := by
  induction l generalizing acc with
  | nil => simp
  | cons e l ih =>
    simp only [List.foldl_cons]
    rw [ih (a.exportStep acc e), ih (a.exportStep [] e), exportStep_acc,
      List.append_assoc]

lemma isEventLevelDangerous_false_of_lt (a : AlertmanagerSink) (lv : String)
    (h : getLevel lv < a.Level) : a.isEventLevelDangerous lv = false := by
  unfold AlertmanagerSink.isEventLevelDangerous
  rw [if_neg (not_le.mpr h)]

lemma createAlertFromEvent_empty (c : String) (e : Event) (h : e.Message = "") :
    createAlertFromEvent c e = Except.error NotVaildAlertName := by
  simp [createAlertFromEvent, h]

lemma exportStep_skip (a : AlertmanagerSink) (acc : List Alert) (e : Event)
    (h : a.isEventLevelDangerous e.type = false ∨
      createAlertFromEvent a.Cluster e = Except.error NotVaildAlertName) :
    a.exportStep acc e = acc := by
  unfold AlertmanagerSink.exportStep
  rcases h with h | h
  · rw [h]
    simp
  · split
    · rw [h]
    · rfl

lemma exportEvents_middle_skip (a : AlertmanagerSink) (pre post : List Event) (e : Event)
    (h : a.exportStep (pre.foldl a.exportStep []) e = pre.foldl a.exportStep []) :
    a.ExportEvents (pre ++ e :: post) = a.ExportEvents (pre ++ post) := by
  unfold AlertmanagerSink.ExportEvents
  rw [List.foldl_append, List.foldl_append, List.foldl_cons, h]

/-! ## Claim theorems -/

/-- C2: an event whose severity score under getLevel is strictly below the
configured threshold contributes nothing to the outbound payload of
ExportEvents — deleting it from the batch leaves the payload unchanged. -/
theorem below_threshold_event_not_forwarded (a : AlertmanagerSink)
    (pre post : List Event) (e : Event) (h : getLevel e.type < a.Level) :
    a.ExportEvents (pre ++ e :: post) = a.ExportEvents (pre ++ post) := by
  exact exportEvents_middle_skip a pre post e
    (exportStep_skip a _ e (Or.inl (isEventLevelDangerous_false_of_lt a e.type h)))

/-- Witness for C2: a Normal event scores 1, below the Warning threshold 2
of demoSink, and is absent from the payload of a batch that also holds a
Warning event. -/
theorem below_threshold_event_not_forwarded_witness :
    getLevel evNorm.type < demoSink.Level ∧
      demoSink.ExportEvents ([evWarn] ++ evNorm :: []) =
        demoSink.ExportEvents ([evWarn] ++ []) :=
  ⟨by decide, below_threshold_event_not_forwarded demoSink [evWarn] [] evNorm (by decide)⟩

/-- C3: the concrete scenario — a batch with the single Warning event
(kube-system, pod-a, OOMKilled, Evicted), threshold Warning, cluster demo,
yields exactly one alert whose label map (in insertion order) is
alertname OOMKilled, group KUBE-SYSTEM (uppercased), level Warning,
instance pod-a, reason Evicted, cluster demo. -/
theorem concrete_warning_event_payload :
    demoSink.ExportEvents [evWarn] =
      [{ Labels := [(AlertNameLabel, "OOMKilled"), (AlertGroupLabel, "KUBE-SYSTEM"),
                    (AlertLevelLabel, "Warning"), (AlertInstanceLabel, "pod-a"),
                    (AlertReasonLabel, "Evicted"), (AlertClusterLabel, "demo")],
         Annotations := [] }] := by
  decide

/-- C4: an event with an empty message makes createAlertFromEvent return
the not-valid-alert-name error and contributes no alert to the payload
while the rest of the batch is still processed; conversely a non-empty
message makes construction succeed. -/
theorem empty_message_alert_build (cluster : String) (a : AlertmanagerSink)
    (pre post : List Event) (e : Event) :
    (e.Message = "" →
      createAlertFromEvent cluster e = Except.error NotVaildAlertName ∧
        a.ExportEvents (pre ++ e :: post) = a.ExportEvents (pre ++ post)) ∧
    (e.Message ≠ "" → ∃ al, createAlertFromEvent cluster e = Except.ok al) := by
  constructor
  · intro h
    refine ⟨createAlertFromEvent_empty cluster e h, ?_⟩
    exact exportEvents_middle_skip a pre post e
      (exportStep_skip a _ e (Or.inr (createAlertFromEvent_empty a.Cluster e h)))
  · intro h
    unfold createAlertFromEvent
    rw [if_pos h]
    exact ⟨_, rfl⟩

/-- Witness for C4: the empty-message Warning event is dropped from a batch
that also holds a buildable Warning event, and the buildable event has a
successful construction. -/
theorem empty_message_alert_build_witness :
    (createAlertFromEvent "demo" evNoMessage = Except.error NotVaildAlertName ∧
      demoSink.ExportEvents ([evWarn] ++ evNoMessage :: []) =
        demoSink.ExportEvents ([evWarn] ++ [])) ∧
    (∃ al, createAlertFromEvent "demo" evWarn = Except.ok al) :=
  ⟨(empty_message_alert_build "demo" demoSink [evWarn] [] evNoMessage).1 rfl,
   (empty_message_alert_build "demo" demoSink [evWarn] [] evWarn).2 (by decide)⟩

/-! ## URIs used by the construction claims -/

/-- URL with query cluster=prod and level=Warning. -/
def uWarnLevel : URL :=
  { Host := "am", Path := "",
    Query := fun k => if k = "cluster" then ["prod"]
      else if k = "level" then ["Warning"] else [] }

/-- URL with query cluster=prod and no level parameter. -/
def uNoLevel : URL :=
  { Host := "am", Path := "",
    Query := fun k => if k = "cluster" then ["prod"] else [] }

/-- URL with query cluster=prod and an unrecognized level value. -/
def uBadLevel : URL :=
  { Host := "am", Path := "",
    Query := fun k => if k = "cluster" then ["prod"]
      else if k = "level" then ["Critical"] else [] }

/-- URL with no cluster parameter. -/
def uNoCluster : URL :=
  { Host := "am", Path := "",
    Query := fun k => if k = "level" then ["Warning"] else [] }

lemma getLevel_nonneg (t : String) : 0 ≤ getLevel t := by
  unfold getLevel
  split
  · norm_num
  · split <;> norm_num

/-- C5: constructing the sink from cluster=prod and level=Warning yields
Level 2 and Cluster prod; with no level parameter Level defaults to 2;
with an unrecognized level value Level is 0 and every event type passes
the severity filter; with no cluster parameter construction fails with the
explicit error. -/
theorem sink_construction_from_uri :
    NewAlertmanagerSink uWarnLevel =
      Except.ok { Endpoint := "am", Level := 2, Cluster := "prod" } ∧
    NewAlertmanagerSink uNoLevel =
      Except.ok { Endpoint := "am", Level := 2, Cluster := "prod" } ∧
    (∃ s, NewAlertmanagerSink uBadLevel = Except.ok s ∧ s.Level = 0 ∧
      ∀ t, s.isEventLevelDangerous t = true) ∧
    NewAlertmanagerSink uNoCluster = Except.error "you must provide cluster name" := by
  refine ⟨rfl, rfl, ⟨{ Endpoint := "am", Level := 0, Cluster := "prod" }, rfl, rfl, ?_⟩, rfl⟩
  intro t
  unfold AlertmanagerSink.isEventLevelDangerous
  rw [if_pos]
  exact getLevel_nonneg t

/-! ## Factory claims -/

lemma buildStep_acc (ext : String → URL → Except String EventSink)
    (acc : List EventSink) (u : Uri) :
    buildStep ext acc u = acc ++ buildStep ext [] u := by
  cases h : Build ext u <;> simp [buildStep, h]

lemma foldl_buildStep_acc (ext : String → URL → Except String EventSink)
    (l : List Uri) (acc : List EventSink) :
    l.foldl (buildStep ext) acc = acc ++ l.foldl (buildStep ext) [] := by
  induction l generalizing acc with
  | nil => simp
  | cons u l ih =>
    simp only [List.foldl_cons]
    rw [ih (buildStep ext acc u), ih (buildStep ext [] u), buildStep_acc,
      List.append_assoc]

/-- C6: BuildAll returns exactly the sinks whose Build succeeded, in spec
order (it equals filterMap of Build); an unknown key yields the
not-recognized error from Build; and a list of one failing spec followed
by two buildable specs yields exactly the two sinks in order. -/
theorem buildAll_order_and_skip (ext : String → URL → Except String EventSink) :
    (∀ uris : List Uri,
      BuildAll ext uris = uris.filterMap (fun u => (Build ext u).toOption)) ∧
    (∀ u : Uri, u.Key ≠ "alertmanager" → otherSinkKeys.contains u.Key = false →
      Build ext u = Except.error ("Sink not recognized: " ++ u.Key)) ∧
    (∀ (u1 u2 u3 : Uri) (msg : String) (s2 s3 : EventSink),
      Build ext u1 = Except.error msg → Build ext u2 = Except.ok s2 →
      Build ext u3 = Except.ok s3 →
      BuildAll ext [u1, u2, u3] = [s2, s3]) := by
  refine ⟨?_, ?_, ?_⟩
  · intro uris
    induction uris with
    | nil => rfl
    | cons u us ih =>
      unfold BuildAll at ih ⊢
      simp only [List.foldl_cons, List.filterMap_cons]
      rw [foldl_buildStep_acc, ih]
      cases h : Build ext u <;> simp [buildStep, h, Except.toOption]
  · intro u h1 h2
    have h2m : ¬ u.Key ∈ otherSinkKeys := by simpa using h2
    simp [Build, h1, h2m]
  · intro u1 u2 u3 msg s2 s3 h1 h2 h3
    unfold BuildAll
    simp [buildStep, h1, h2, h3]

/-- External constructors that always succeed, used to instantiate the
factory claims. -/
def extAllOk : String → URL → Except String EventSink :=
  fun k _ => Except.ok (EventSink.other k)

/-- Spec with a key no factory branch recognizes. -/
def uriBad : Uri := { Key := "statsd", Val := uNoCluster }

/-- Spec for the log sink. -/
def uriLog : Uri := { Key := "log", Val := uNoLevel }

/-- Spec for the alertmanager sink with a valid cluster parameter. -/
def uriAm : Uri := { Key := "alertmanager", Val := uWarnLevel }

/-- Witness for C6: one unrecognized key between two buildable specs gives
exactly the two sinks, in order. -/
theorem buildAll_order_and_skip_witness :
    Build extAllOk uriBad = Except.error "Sink not recognized: statsd" ∧
    Build extAllOk uriLog = Except.ok (EventSink.other "log") ∧
    Build extAllOk uriAm =
      Except.ok (EventSink.alertmanager { Endpoint := "am", Level := 2, Cluster := "prod" }) ∧
    BuildAll extAllOk [uriBad, uriLog, uriAm] =
      [EventSink.other "log",
       EventSink.alertmanager { Endpoint := "am", Level := 2, Cluster := "prod" }] :=
  ⟨rfl, rfl, rfl,
   (buildAll_order_and_skip extAllOk).2.2 uriBad uriLog uriAm _ _ _ rfl rfl rfl⟩

/-! ## Dedup claims -/

lemma isIgnoreAlert_of_mem (e : Event) (h : e.Reason ∈ ignoreAlerts) :
    isIgnoreAlert e = true := by
  have hr : e.Reason = "Unhealthy" := by simpa [ignoreAlerts] using h
  simp [isIgnoreAlert, ignoreAlerts, hr]

lemma cacheGet_cacheAdd_self (c : Cache) (key : String) (e now : Nat) :
    cacheGet (cacheAdd c key e) key now = if e < now then false else true := by
  simp [cacheGet, cacheAdd, List.lookup]

/-- C7: an event whose reason is on the ignore list is never forwarded by
the dedup variant and leaves the recorder untouched, with no hypothesis on
its severity; dropping it from the head of a trace leaves the outcome of
ExportEvents unchanged. -/
theorem ignored_reason_not_forwarded (a : AlertmanagerSink) (c : Cache) (t : Nat)
    (e : Event) (rest : List (Nat × Event)) (h : e.Reason ∈ ignoreAlerts) :
    Dedup.processEvent a c t e = (c, none) ∧
    Dedup.ExportEvents a c ((t, e) :: rest) = Dedup.ExportEvents a c rest := by
  have hig := isIgnoreAlert_of_mem e h
  have hp : Dedup.processEvent a c t e = (c, none) := by
    simp [Dedup.processEvent, hig]
  refine ⟨hp, ?_⟩
  unfold Dedup.ExportEvents
  simp only [List.foldl_cons]
  have hs : Dedup.exportStep a (c, []) (t, e) = (c, []) := by
    simp [Dedup.exportStep, hp]
  rw [hs]

/-- Witness for C7: the Unhealthy-reason Warning event is skipped by the
dedup variant even though its severity meets the threshold. -/
theorem ignored_reason_not_forwarded_witness :
    evUnhealthy.Reason ∈ ignoreAlerts ∧
    demoSink.isEventLevelDangerous evUnhealthy.type = true ∧
    Dedup.processEvent demoSink [] 0 evUnhealthy = ([], none) ∧
    Dedup.ExportEvents demoSink [] [(0, evUnhealthy)] =
      Dedup.ExportEvents demoSink [] [] :=
  ⟨by decide, by decide,
   (ignored_reason_not_forwarded demoSink [] 0 evUnhealthy [] (by decide)).1,
   (ignored_reason_not_forwarded demoSink [] 0 evUnhealthy [] (by decide)).2⟩

/-- C1: for a dangerous, non-ignored, buildable event whose fingerprint is
not yet recorded, processing it and then an identical event on the dedup
variant forwards only the first alert when the second arrives inside the
300 second window, and forwards both when the second arrives after the
window has elapsed. -/
theorem dedup_suppresses_within_window (a : AlertmanagerSink) (e : Event)
    (c0 : Cache) (t0 t1 : Nat)
    (hd : a.isEventLevelDangerous e.type = true)
    (hi : isIgnoreAlert e = false)
    (hm : e.Message ≠ "")
    (hf : cacheGet c0 (generateKey e) t0 = false) :
    ∃ al, createAlertFromEvent a.Cluster e = Except.ok al ∧
      (t1 < t0 + 300 → (Dedup.ExportEvents a c0 [(t0, e), (t1, e)]).2 = [al]) ∧
      (t0 + 300 < t1 → (Dedup.ExportEvents a c0 [(t0, e), (t1, e)]).2 = [al, al]) := by
  obtain ⟨al, hal⟩ : ∃ al, createAlertFromEvent a.Cluster e = Except.ok al := by
    unfold createAlertFromEvent
    rw [if_pos hm]
    exact ⟨_, rfl⟩
  have step1 : Dedup.processEvent a c0 t0 e =
      (cacheAdd c0 (generateKey e) (t0 + 300), some al) := by
    simp [Dedup.processEvent, hd, hi, hf, hal]
  refine ⟨al, hal, ?_, ?_⟩
  · intro hlt
    have hget : cacheGet (cacheAdd c0 (generateKey e) (t0 + 300)) (generateKey e) t1
        = true := by
      rw [cacheGet_cacheAdd_self, if_neg (by omega)]
    have step2 : Dedup.processEvent a (cacheAdd c0 (generateKey e) (t0 + 300)) t1 e =
        (cacheAdd c0 (generateKey e) (t0 + 300), none) := by
      simp [Dedup.processEvent, hd, hi, hget]
    simp [Dedup.ExportEvents, Dedup.exportStep, step1, step2]
  · intro hgt
    have hget : cacheGet (cacheAdd c0 (generateKey e) (t0 + 300)) (generateKey e) t1
        = false := by
      rw [cacheGet_cacheAdd_self, if_pos (by omega)]
    have step2 : Dedup.processEvent a (cacheAdd c0 (generateKey e) (t0 + 300)) t1 e =
        (cacheAdd (cacheAdd c0 (generateKey e) (t0 + 300)) (generateKey e) (t1 + 300),
         some al) := by
      simp [Dedup.processEvent, hd, hi, hget, hal]
    simp [Dedup.ExportEvents, Dedup.exportStep, step1, step2]

/-- Witness for C1: the Warning event processed at time 0 on an empty
recorder, then again at time 100, with all four side conditions holding. -/
theorem dedup_suppresses_within_window_witness :
    demoSink.isEventLevelDangerous evWarn.type = true ∧
    isIgnoreAlert evWarn = false ∧
    evWarn.Message ≠ "" ∧
    cacheGet [] (generateKey evWarn) 0 = false ∧
    (∃ al, createAlertFromEvent demoSink.Cluster evWarn = Except.ok al ∧
      (100 < 0 + 300 → (Dedup.ExportEvents demoSink [] [(0, evWarn), (100, evWarn)]).2 = [al]) ∧
      (0 + 300 < 100 → (Dedup.ExportEvents demoSink [] [(0, evWarn), (100, evWarn)]).2 = [al, al])) :=
  ⟨by decide, by decide, by decide, by decide,
   dedup_suppresses_within_window demoSink evWarn [] 0 100
     (by decide) (by decide) (by decide) (by decide)⟩

/-- C10: the dedup variant records the fingerprint with a 300 second expiry
before attempting the alert build, so a dangerous, non-ignored event with
an empty message yields no alert yet still inserts its fingerprint, and
any later event sharing that fingerprint (dangerous, non-ignored) within
the window is suppressed at the dedup check. -/
theorem fingerprint_recorded_before_build (a : AlertmanagerSink) (e eNext : Event)
    (c0 : Cache) (t0 t1 : Nat)
    (hd : a.isEventLevelDangerous e.type = true)
    (hi : isIgnoreAlert e = false)
    (hm : e.Message = "")
    (hf : cacheGet c0 (generateKey e) t0 = false)
    (hkey : generateKey eNext = generateKey e)
    (hd2 : a.isEventLevelDangerous eNext.type = true)
    (hi2 : isIgnoreAlert eNext = false)
    (hw : t1 ≤ t0 + 300) :
    Dedup.processEvent a c0 t0 e = (cacheAdd c0 (generateKey e) (t0 + 300), none) ∧
    cacheGet (cacheAdd c0 (generateKey e) (t0 + 300)) (generateKey eNext) t1 = true ∧
    Dedup.processEvent a (cacheAdd c0 (generateKey e) (t0 + 300)) t1 eNext =
      (cacheAdd c0 (generateKey e) (t0 + 300), none) := by
  have herr := createAlertFromEvent_empty a.Cluster e hm
  have hget : cacheGet (cacheAdd c0 (generateKey e) (t0 + 300)) (generateKey eNext) t1
      = true := by
    rw [hkey, cacheGet_cacheAdd_self, if_neg (by omega)]
  refine ⟨?_, hget, ?_⟩
  · simp [Dedup.processEvent, hd, hi, hf, herr]
  · simp [Dedup.processEvent, hd2, hi2, hget]

/-- Witness for C10: the empty-message Warning event at time 0, followed by
an identical event at time 200, on an empty recorder. -/
theorem fingerprint_recorded_before_build_witness :
    demoSink.isEventLevelDangerous evNoMessage.type = true ∧
    isIgnoreAlert evNoMessage = false ∧
    evNoMessage.Message = "" ∧
    cacheGet [] (generateKey evNoMessage) 0 = false ∧
    (Dedup.processEvent demoSink [] 0 evNoMessage =
      (cacheAdd [] (generateKey evNoMessage) (0 + 300), none) ∧
    cacheGet (cacheAdd [] (generateKey evNoMessage) (0 + 300)) (generateKey evNoMessage) 200
      = true ∧
    Dedup.processEvent demoSink (cacheAdd [] (generateKey evNoMessage) (0 + 300)) 200
        evNoMessage =
      (cacheAdd [] (generateKey evNoMessage) (0 + 300), none)) :=
  ⟨by decide, by decide, by decide, by decide,
   fingerprint_recorded_before_build demoSink evNoMessage evNoMessage [] 0 200
     (by decide) (by decide) (by decide) (by decide) rfl (by decide) (by decide) (by decide)⟩

/-! ## Fingerprint injectivity (C8) -/

/-- Event whose type and namespace split the text Warningabc one way. -/
def evSplitA : Event :=
  { type := "Warning", Namespace := "abc", Name := "", Message := "m", Reason := "" }

/-- Event whose type and namespace split the same text the other way. -/
def evSplitB : Event :=
  { type := "Warninga", Namespace := "bc", Name := "", Message := "m", Reason := "" }

/-- Copy of the Warning sample event with field-wise equal values. -/
def evWarnCopy : Event :=
  { type := "Warning", Namespace := "kube-system", Name := "pod-a",
    Message := "OOMKilled", Reason := "Evicted" }

/-- Counterexample for C8: generateKey concatenates the five identity
fields with no separator, so two events whose identity tuples differ can
share a fingerprint. -/
theorem generateKey_collision_cex :
    (evSplitA.type, evSplitA.Namespace, evSplitA.Name, evSplitA.Message, evSplitA.Reason) ≠
      (evSplitB.type, evSplitB.Namespace, evSplitB.Name, evSplitB.Message, evSplitB.Reason) ∧
    generateKey evSplitA = generateKey evSplitB := by
  decide

/-- C8 amended: the fingerprint is a deterministic function of the identity
tuple (equal tuples give equal fingerprints), but it is not injective —
differently-split fields that concatenate to the same string collide. -/
theorem generateKey_deterministic_not_injective :
    (∀ e1 e2 : Event, e1.type = e2.type → e1.Namespace = e2.Namespace →
      e1.Name = e2.Name → e1.Message = e2.Message → e1.Reason = e2.Reason →
      generateKey e1 = generateKey e2) ∧
    (∃ e1 e2 : Event,
      (e1.type, e1.Namespace, e1.Name, e1.Message, e1.Reason) ≠
        (e2.type, e2.Namespace, e2.Name, e2.Message, e2.Reason) ∧
      generateKey e1 = generateKey e2) := by
  constructor
  · intro e1 e2 h1 h2 h3 h4 h5
    unfold generateKey
    rw [h1, h2, h3, h4, h5]
  · exact ⟨evSplitA, evSplitB, by decide, by decide⟩

/-- Witness for C8 amended: two field-wise equal events receive the same
fingerprint. -/
theorem generateKey_deterministic_not_injective_witness :
    (evWarn.type = evWarnCopy.type ∧ evWarn.Namespace = evWarnCopy.Namespace ∧
      evWarn.Name = evWarnCopy.Name ∧ evWarn.Message = evWarnCopy.Message ∧
      evWarn.Reason = evWarnCopy.Reason) ∧
    generateKey evWarn = generateKey evWarnCopy :=
  ⟨⟨rfl, rfl, rfl, rfl, rfl⟩,
   generateKey_deterministic_not_injective.1 evWarn evWarnCopy rfl rfl rfl rfl rfl⟩

/-! ## Alert label invariant (C9) -/

/-- URL whose cluster parameter is present with an empty value. -/
def uEmptyCluster : URL :=
  { Host := "am", Path := "/sub",
    Query := fun k => if k = "cluster" then [""] else [] }

/-- Counterexample for C9: a URI whose cluster parameter has an empty value
is accepted by construction, and the resulting alerts carry a cluster
label entry whose value is the empty string. -/
theorem alert_cluster_label_empty_cex :
    NewAlertmanagerSink uEmptyCluster =
      Except.ok { Endpoint := "am/sub", Level := 2, Cluster := "" } ∧
    createAlertFromEvent "" evWarn = Except.ok
      { Labels := [(AlertNameLabel, "OOMKilled"), (AlertGroupLabel, "KUBE-SYSTEM"),
                   (AlertLevelLabel, "Warning"), (AlertInstanceLabel, "pod-a"),
                   (AlertReasonLabel, "Evicted"), (AlertClusterLabel, "")],
         Annotations := [] } ∧
    ([(AlertNameLabel, "OOMKilled"), (AlertGroupLabel, "KUBE-SYSTEM"),
      (AlertLevelLabel, "Warning"), (AlertInstanceLabel, "pod-a"),
      (AlertReasonLabel, "Evicted"), (AlertClusterLabel, "")] :
        List (String × String)).lookup AlertClusterLabel = some "" :=
  ⟨rfl, rfl, rfl⟩

lemma createAlert_lookup (c : String) (e : Event) (al : Alert)
    (h : createAlertFromEvent c e = Except.ok al) :
    e.Message ≠ "" ∧
    al.Labels.lookup AlertNameLabel = some e.Message ∧
    al.Labels.lookup AlertClusterLabel = some c := by
  by_cases hm : e.Message = ""
  · rw [createAlertFromEvent_empty c e hm] at h
    exact absurd h (by simp)
  · refine ⟨hm, ?_, ?_⟩ <;>
    · unfold createAlertFromEvent at h
      rw [if_pos hm] at h
      simp only [Except.ok.injEq] at h
      subst h
      dsimp only
      split_ifs <;> rfl

/-- C9 amended: every alert built by a successfully constructed sink has a
non-empty alertname entry and a cluster entry equal to the configured
cluster value — hence non-empty whenever that value is non-empty; a URI
with an empty cluster parameter value is nevertheless accepted, so the
cluster entry itself may be empty. -/
theorem alert_labels_alertname_nonempty_cluster_present (u : URL)
    (s : AlertmanagerSink) (e : Event) (al : Alert)
    (hs : NewAlertmanagerSink u = Except.ok s)
    (hal : createAlertFromEvent s.Cluster e = Except.ok al) :
    (∃ v, al.Labels.lookup AlertNameLabel = some v ∧ v ≠ "") ∧
    al.Labels.lookup AlertClusterLabel = some s.Cluster ∧
    (s.Cluster ≠ "" → ∃ v, al.Labels.lookup AlertClusterLabel = some v ∧ v ≠ "") := by
  obtain ⟨hm, hn, hc⟩ := createAlert_lookup s.Cluster e al hal
  exact ⟨⟨e.Message, hn, hm⟩, hc, fun hne => ⟨s.Cluster, hc, hne⟩⟩

/-- Sink the cluster=prod URI constructs. -/
def prodSink : AlertmanagerSink := { Endpoint := "am", Level := 2, Cluster := "prod" }

/-- Alert built from the Warning sample event for cluster prod. -/
def alWarnProd : Alert :=
  { Labels := [(AlertNameLabel, "OOMKilled"), (AlertGroupLabel, "KUBE-SYSTEM"),
               (AlertLevelLabel, "Warning"), (AlertInstanceLabel, "pod-a"),
               (AlertReasonLabel, "Evicted"), (AlertClusterLabel, "prod")],
    Annotations := [] }

/-- Witness for C9 amended: the sink built from cluster=prod and the alert
built from the Warning sample event. -/
theorem alert_labels_alertname_nonempty_cluster_present_witness :
    NewAlertmanagerSink uWarnLevel = Except.ok prodSink ∧
    createAlertFromEvent prodSink.Cluster evWarn = Except.ok alWarnProd ∧
    ((∃ v, alWarnProd.Labels.lookup AlertNameLabel = some v ∧ v ≠ "") ∧
      alWarnProd.Labels.lookup AlertClusterLabel = some prodSink.Cluster ∧
      (prodSink.Cluster ≠ "" →
        ∃ v, alWarnProd.Labels.lookup AlertClusterLabel = some v ∧ v ≠ "")) :=
  ⟨rfl, rfl,
   alert_labels_alertname_nonempty_cluster_present uWarnLevel prodSink evWarn alWarnProd
     rfl rfl⟩

end Heapster
